import Mathlib

/-!
Verification of the Dolby Vision demuxer core (`src/dovi/general_read_write.rs`).

The development shallowly embeds the dispatcher (`write_nals`), the reorder/flush
stage (`flush_writer`) and the chunked read loop (`read_write_from_io`) of the
program.  Byte buffers are `List Nat`; the four optional output sinks hold the
bytes written to them so far; fallible code returns `Except String`.  The external
collaborators (profile converter, SEI classifier) are opaque parameters; the
external HEVC boundary scanner and splitter, whose code is not part of this
repository, are modelled from the specification's interface description.
-/

namespace Dovi

/-- NAL unit type for SEI-prefix units (`NAL_SEI_PREFIX` in the source). -/
def NAL_SEI : Nat := 39

/-- NAL unit type carrying the RPU metadata (`NAL_UNSPEC62`). -/
def NAL_UNSPEC62 : Nat := 62

/-- NAL unit type carrying the enhancement layer (`NAL_UNSPEC63`). -/
def NAL_UNSPEC63 : Nat := 63

/-- The 4-byte unit-start marker written before every emitted unit. -/
def OUT_NAL_HEADER : List Nat := [0, 0, 0, 1]

/-- A parsed NAL unit record (`hevc_parser::hevc::NALUnit`), restricted to the
fields the dispatcher reads.  `start`/`nal_end` delimit the unit's bytes (start
code excluded) inside the current chunk. -/
structure NALUnit where
  nal_type : Nat
  start : Nat
  nal_end : Nat
  decoded_frame_index : Nat
deriving DecidableEq

/-- The options the dispatcher consumes (`CliOptions`, restricted to the fields
read by `write_nals`).  `mode` is the conversion mode selector. -/
structure CliOptions where
  mode : Option Nat
  discard_el : Bool
  drop_hdr10plus : Bool
deriving DecidableEq

/-- A buffered RPU record (`RpuNal` in the source). -/
structure RpuNal where
  decoded_index : Nat
  presentation_number : Nat
  data : List Nat
deriving DecidableEq

/-- A decode-to-presentation order entry (`hevc_parser`'s `Frame`, restricted to
the two fields `flush_writer` reads). -/
structure Frame where
  decoded_number : Nat
  presentation_number : Nat
deriving DecidableEq

/-- The four optional output sinks (`DoviWriter`); each holds the bytes written
to it so far. -/
structure DoviWriter where
  bl_writer : Option (List Nat)
  el_writer : Option (List Nat)
  rpu_writer : Option (List Nat)
  sl_writer : Option (List Nat)
deriving DecidableEq

/-- The dispatcher's mutable state (`DoviReader`). -/
structure DoviReader where
  options : CliOptions
  rpu_nals : List RpuNal
  previous_rpu_index : Nat
deriving DecidableEq

/-- The full state threaded through the dispatcher: reader state, sink contents,
and the frame indices for which a duplicate-RPU warning was printed. -/
structure ProcState where
  reader : DoviReader
  writer : DoviWriter
  warnings : List Nat
deriving DecidableEq

/-- The opaque external collaborators: `convert_encoded_from_opts` (keyed by the
conversion mode) and the ST2094-40 SEI classifier `is_st2094_40_sei`. -/
structure Externals where
  convert : Nat → List Nat → Except String (List Nat)
  is_st2094_40_sei : List Nat → Except String Bool

/-- The byte slice `chunk[s..e]`. -/
def sliceBytes (chunk : List Nat) (s e : Nat) : List Nat :=
  (chunk.drop s).take (e - s)

/-- Rules 2-4 of the dispatcher loop body of `write_nals` (everything after the
HDR10+ filter): duplicate-RPU drop, single-layer sink, then the per-layer
`match` on the unit type. -/
def dispatchNal (ext : Externals) (chunk : List Nat) (st : ProcState) (nal : NALUnit) :
    Except String ProcState :=
  let opts := st.reader.options
  if 0 < st.reader.previous_rpu_index ∧ nal.nal_type = NAL_UNSPEC62 ∧
      nal.decoded_frame_index = st.reader.previous_rpu_index then
    .ok { st with warnings := st.warnings ++ [st.reader.previous_rpu_index] }
  else
      match st.writer.sl_writer with
      | some sl =>
        if nal.nal_type = NAL_UNSPEC63 ∧ opts.discard_el = true then .ok st
        else
          let sl1 := sl ++ OUT_NAL_HEADER
          let slPlain := some (sl1 ++ sliceBytes chunk nal.start nal.nal_end)
          if nal.nal_type = NAL_UNSPEC62 then
            match opts.mode with
            | some m =>
              match ext.convert m (sliceBytes chunk nal.start nal.nal_end) with
              | .error e => .error e
              | .ok modified =>
                .ok { st with writer := { st.writer with sl_writer := some (sl1 ++ modified) } }
            | none =>
              .ok { st with writer := { st.writer with sl_writer := slPlain } }
          else
            .ok { st with writer := { st.writer with sl_writer := slPlain } }
      | none =>
        if nal.nal_type = NAL_UNSPEC63 then
          match st.writer.el_writer with
          | some el =>
            let el1 := some (el ++ OUT_NAL_HEADER ++ sliceBytes chunk (nal.start + 2) nal.nal_end)
            .ok { st with writer := { st.writer with el_writer := el1 } }
          | none => .ok st
        else if nal.nal_type = NAL_UNSPEC62 then
          let reader1 := { st.reader with previous_rpu_index := nal.decoded_frame_index }
          let writer1 :=
            match st.writer.el_writer with
            | some el => { st.writer with el_writer := some (el ++ OUT_NAL_HEADER) }
            | none => st.writer
          let rpu_data := sliceBytes chunk nal.start nal.nal_end
          match opts.mode with
          | some m =>
            match ext.convert m rpu_data with
            | .error e => .error e
            | .ok modified =>
              if writer1.rpu_writer.isSome then
                let rec1 : RpuNal := ⟨reader1.rpu_nals.length, 0, modified.drop 2⟩
                let reader2 := { reader1 with rpu_nals := reader1.rpu_nals ++ [rec1] }
                .ok { st with reader := reader2, writer := writer1 }
              else
                match writer1.el_writer with
                | some el =>
                  let writer2 := { writer1 with el_writer := some (el ++ modified) }
                  .ok { st with reader := reader1, writer := writer2 }
                | none => .ok { st with reader := reader1, writer := writer1 }
          | none =>
            if writer1.rpu_writer.isSome then
              let rec1 : RpuNal := ⟨reader1.rpu_nals.length, 0, rpu_data.drop 2⟩
              let reader2 := { reader1 with rpu_nals := reader1.rpu_nals ++ [rec1] }
              .ok { st with reader := reader2, writer := writer1 }
            else
              match writer1.el_writer with
              | some el =>
                let writer2 := { writer1 with el_writer := some (el ++ rpu_data) }
                .ok { st with reader := reader1, writer := writer2 }
              | none => .ok { st with reader := reader1, writer := writer1 }
        else
          match st.writer.bl_writer with
          | some bl =>
            let bl1 := some (bl ++ OUT_NAL_HEADER ++ sliceBytes chunk nal.start nal.nal_end)
            .ok { st with writer := { st.writer with bl_writer := bl1 } }
          | none => .ok st

/-- One iteration of the dispatcher loop body of `write_nals`, for a single NAL
unit: the HDR10+ filter (rule 1, which consults the external classifier only for
SEI-prefix units when `drop_hdr10plus` is set) followed by `dispatchNal`. -/
def writeNal (ext : Externals) (chunk : List Nat) (st : ProcState) (nal : NALUnit) :
    Except String ProcState :=
  if st.reader.options.drop_hdr10plus = true ∧ nal.nal_type = NAL_SEI then
    match ext.is_st2094_40_sei (sliceBytes chunk nal.start nal.nal_end) with
    | .error e => .error e
    | .ok true => .ok st
    | .ok false => dispatchNal ext chunk st nal
  else dispatchNal ext chunk st nal

/-- The dispatcher loop of `write_nals` over a list of parsed units. -/
def writeNals (ext : Externals) (chunk : List Nat) (st : ProcState) :
    List NALUnit → Except String ProcState
  | [] => .ok st
  | nal :: rest =>
    match writeNal ext chunk st nal with
    | .error e => .error e
    | .ok st' => writeNals ext chunk st' rest

/-- The sort key lookup of `flush_writer`: the `presentation_number` of the first
frame entry whose `decoded_number` equals the record's `decoded_index`. -/
def findKey (frames : List Frame) (r : RpuNal) : Option Nat :=
  (frames.find? (fun f => r.decoded_index == f.decoded_number)).map Frame.presentation_number

/-- The fatal message for a record with no matching frame entry. -/
def missingMsg (i : Nat) : String :=
  "Missing frame/slices for metadata! Decoded index " ++ toString i

/-- Key computation of `sort_by_cached_key`: keys are computed for every record in
buffer order, and the first record with no matching frame entry aborts. -/
def assignKeys (frames : List Frame) : List RpuNal → Except String (List (RpuNal × Nat))
  | [] => .ok []
  | r :: rs =>
    match findKey frames r with
    | some k =>
      match assignKeys frames rs with
      | .error e => .error e
      | .ok ps => .ok ((r, k) :: ps)
    | none => .error (missingMsg r.decoded_index)

/-- Comparison on cached keys. -/
def pairLE (a b : RpuNal × Nat) : Prop := a.2 ≤ b.2

instance : DecidableRel pairLE := fun a b => Nat.decLe a.2 b.2

instance : IsTotal (RpuNal × Nat) pairLE := ⟨fun a b => Nat.le_total a.2 b.2⟩

instance : IsTrans (RpuNal × Nat) pairLE := ⟨fun _ _ _ => Nat.le_trans⟩

/-- The byte sequence the write loop of `flush_writer` appends to the RPU sink:
each record as the unit-start marker followed by its stored payload. -/
def rpuPayloadBytes (l : List RpuNal) : List Nat :=
  (l.map (fun r => OUT_NAL_HEADER ++ r.data)).flatten

/-- Reassignment of each record's `presentation_number` to its position after
sorting. -/
def renumber (l : List RpuNal) : List RpuNal :=
  l.enum.map (fun p => { p.2 with presentation_number := p.1 })

/-- The flush stage `flush_writer`: flushing the BL/EL sinks is a no-op in the
model (their contents are already the full written byte sequence); when an RPU
sink is configured the buffered records are stable-sorted by the cached key
(`sort_by_cached_key` is stable, and a stable sort's output is unique, so
insertion sort models it exactly), renumbered, and written out. -/
def flushWriter (frames : List Frame) (st : ProcState) : Except String ProcState :=
  match st.writer.rpu_writer with
  | none => .ok st
  | some out =>
    if frames = [] then .error "No frames parsed!"
    else
      match assignKeys frames st.reader.rpu_nals with
      | .error e => .error e
      | .ok pairs =>
        let sorted := (List.insertionSort pairLE pairs).map Prod.fst
        let renum := renumber sorted
        let out1 := some (out ++ rpuPayloadBytes renum)
        let reader1 := { st.reader with rpu_nals := renum }
        let writer1 := { st.writer with rpu_writer := out1 }
        .ok { st with reader := reader1, writer := writer1 }

/-- Modelled from the spec: the External Parser's `scan(buffer) -> boundary
offsets` (the low-level byte-pattern scan is out of the repository's scope);
boundaries are the positions of the 4-byte unit-start marker `00 00 00 01`. -/
def getOffsets (chunk : List Nat) : List Nat :=
  (List.range chunk.length).filter (fun i => (chunk.drop i).take 4 == [0, 0, 0, 1])

/-- Modelled from the spec: the External Parser's
`extract(buffer, offsets, last_offset, want_full_records)`.  Each listed offset
starts a unit whose bytes begin after the 4-byte marker; a unit ends at the next
listed offset, except that the unit starting at `last_offset` extends to the end
of the buffer and the final listed offset (when it is not `last_offset`) ends at
`last_offset`.  The type tag is the standard HEVC type field of the first byte
after the marker; the decode index is not needed by the modelled claims. -/
def splitNals (chunk : List Nat) (offsets : List Nat) (last : Nat) : List NALUnit :=
  (List.range offsets.length).map (fun i =>
    let o := offsets.getD i 0
    let e :=
      if o = last then chunk.length
      else if i = offsets.length - 1 then last
      else offsets.getD (i + 1) 0
    { nal_type := ((chunk.getD (o + 4) 0) / 2) % 64
      start := o + 4
      nal_end := e
      decoded_frame_index := 0 })

/-- The fixed chunk threshold of `read_write_from_io`. -/
def chunkSize : Nat := 100000

/-- The state of the read loop of `read_write_from_io` (Raw-file format): the
remaining scheduled reads, the working buffer `chunk`, the carry-over buffer
`end`, and the dispatcher state. -/
structure LoopState where
  reads : List (List Nat)
  chunk : List Nat
  endBuf : List Nat
  proc : ProcState
deriving DecidableEq

/-- Result of one read-loop iteration. -/
inductive StepRes where
  | done (p : ProcState)
  | cont (s : LoopState)
  | err (e : String)
deriving DecidableEq

/-- The body of one iteration after the read: accumulate, scan, defer or split
and dispatch, and manage the carry-over, exactly as in `read_write_from_io`. -/
def processChunk (ext : Externals) (readBytes : Nat) (chunk : List Nat)
    (endBuf : List Nat) (proc : ProcState) (rest : List (List Nat)) : StepRes :=
  let offsets := getOffsets chunk
  if offsets = [] then .cont ⟨rest, chunk, endBuf, proc⟩
  else if readBytes < chunkSize then
    let last := offsets.getLastD 0
    let nals := splitNals chunk offsets last
    match writeNals ext chunk proc nals with
    | .error e => .err e
    | .ok proc' =>
      if endBuf = [] then .cont ⟨rest, [], [], proc'⟩
      else .cont ⟨rest, endBuf, [], proc'⟩
  else
    let last := offsets.getLastD 0
    let offsets' := offsets.dropLast
    let end' := chunk.drop last
    let nals := splitNals chunk offsets' last
    match writeNals ext chunk proc nals with
    | .error e => .err e
    | .ok proc' => .cont ⟨rest, end', [], proc'⟩

/-- One iteration of the read loop of `read_write_from_io`: a read returning the
next scheduled slice (zero bytes once the source is exhausted), the exhaustion
check, then the chunk-processing body. -/
def loopStep (ext : Externals) (s : LoopState) : StepRes :=
  match s.reads with
  | [] =>
    if s.endBuf = [] ∧ s.chunk = [] then .done s.proc
    else processChunk ext 0 s.chunk s.endBuf s.proc []
  | buf :: rest =>
    if buf.length = 0 ∧ s.endBuf = [] ∧ s.chunk = [] then .done s.proc
    else processChunk ext buf.length (s.chunk ++ buf) s.endBuf s.proc rest

/-- Fuel-indexed run of the read loop; `none` means the loop has not finished
within `fuel` iterations. -/
def readLoop (ext : Externals) : Nat → LoopState → Option (Except String ProcState)
  | 0, _ => none
  | fuel + 1, s =>
    match loopStep ext s with
    | .done p => some (.ok p)
    | .err e => some (.error e)
    | .cont s' => readLoop ext fuel s'

/-- Did the flush stage fail fatally? -/
def isFatal : Except String ProcState → Bool
  | .error _ => true
  | .ok _ => false

/-- Count of output destinations a dispatcher step wrote to: the three byte
sinks it changed, plus the RPU destination when the RPU sink bytes changed or a
record was buffered for it. -/
def sinkDelta (st st' : ProcState) : Nat :=
  (if st'.writer.bl_writer ≠ st.writer.bl_writer then 1 else 0) +
    (if st'.writer.el_writer ≠ st.writer.el_writer then 1 else 0) +
    (if st'.writer.sl_writer ≠ st.writer.sl_writer then 1 else 0) +
    (if st'.writer.rpu_writer ≠ st.writer.rpu_writer ∨
        st'.reader.rpu_nals ≠ st.reader.rpu_nals then 1 else 0)

/-- Concrete externals: identity converter, classifier reporting not-ST2094-40. -/
def extId : Externals :=
  { convert := fun _ d => .ok d, is_st2094_40_sei := fun _ => .ok false }

/-- Concrete externals: classifier reporting ST2094-40 for every payload. -/
def extSei : Externals :=
  { convert := fun _ d => .ok d, is_st2094_40_sei := fun _ => .ok true }

/-- Options: no conversion, no filters. -/
def optsPlain : CliOptions := { mode := none, discard_el := false, drop_hdr10plus := false }

/-- Options: conversion mode 0, no filters. -/
def optsMode : CliOptions := { mode := some 0, discard_el := false, drop_hdr10plus := false }

/-- A fresh dispatcher state over the given sinks and options. -/
def mkState (opts : CliOptions) (w : DoviWriter) : ProcState :=
  { reader := { options := opts, rpu_nals := [], previous_rpu_index := 0 },
    writer := w, warnings := [] }

/-- Sink set: BL only. -/
def wBL : DoviWriter :=
  { bl_writer := some [], el_writer := none, rpu_writer := none, sl_writer := none }

/-- Sink set: RPU only. -/
def wRPU : DoviWriter :=
  { bl_writer := none, el_writer := none, rpu_writer := some [], sl_writer := none }

/-- Sink set: EL only. -/
def wEL : DoviWriter :=
  { bl_writer := none, el_writer := some [], rpu_writer := none, sl_writer := none }

/-- Sink set: EL and RPU. -/
def wELRPU : DoviWriter :=
  { bl_writer := none, el_writer := some [], rpu_writer := some [], sl_writer := none }

/-- A four-byte RPU unit payload (`7C 01` header then two bytes). -/
def rpuChunk : List Nat := [124, 1, 170, 187]

/-- An RPU unit for decoded frame 0 spanning all of `rpuChunk`. -/
def nalRpu0 : NALUnit := { nal_type := 62, start := 0, nal_end := 4, decoded_frame_index := 0 }

/-- An RPU unit for decoded frame 5 spanning all of `rpuChunk`. -/
def nalRpu5 : NALUnit := { nal_type := 62, start := 0, nal_end := 4, decoded_frame_index := 5 }

/-- A dispatcher state that has most recently accepted an RPU for frame 5. -/
def stPrev5 : ProcState :=
  { reader := { options := optsPlain, rpu_nals := [⟨0, 0, [170, 187]⟩], previous_rpu_index := 5 },
    writer := wRPU, warnings := [] }

/-- The C7 input: three complete units of types outside the special set, each
preceded by the 4-byte start marker. -/
def inputC7 : List Nat :=
  [0, 0, 0, 1, 170, 187, 0, 0, 0, 1, 204, 221, 238, 0, 0, 0, 1, 17, 34]

/-- The BL sink contents after running the read loop over the given scheduled
reads with only a BL sink, no conversion and no filters; `none` when the loop
does not finish within `fuel` iterations or fails. -/
def runBL (reads : List (List Nat)) (fuel : Nat) : Option (List Nat) :=
  match readLoop extId fuel ⟨reads, [], [], mkState optsPlain wBL⟩ with
  | some (.ok p) => p.writer.bl_writer
  | _ => none

/-- The dispatcher state with the HDR10+ filter flag set to `b`. -/
def setDrop (b : Bool) (st : ProcState) : ProcState :=
  { st with reader := { st.reader with options := { st.reader.options with drop_hdr10plus := b } } }

/-- The reordering key of a record, as a total function (meaningful when a
matching frame entry exists). -/
def keyOf (frames : List Frame) (r : RpuNal) : Nat :=
  (findKey frames r).getD 0

/-- The stable sort of the buffered records by their cached reordering keys, as
performed at flush time. -/
def sortedRecs (frames : List Frame) (l : List RpuNal) : List RpuNal :=
  (List.insertionSort pairLE (l.map (fun r => (r, keyOf frames r)))).map Prod.fst

/-- The state produced by a successful flush with an RPU sink holding `out`. -/
def flushedState (frames : List Frame) (st : ProcState) (out : List Nat) : ProcState :=
  let l' := sortedRecs frames st.reader.rpu_nals
  let reader1 := { st.reader with rpu_nals := renumber l' }
  let writer1 := { st.writer with rpu_writer := some (out ++ rpuPayloadBytes l') }
  { st with reader := reader1, writer := writer1 }

/-- The buffered records are indexed by acceptance order, with zeroed
presentation numbers. -/
def wellIndexed (l : List RpuNal) : Prop :=
  ∀ i (hi : i < l.length),
    (l.get ⟨i, hi⟩).decoded_index = i ∧ (l.get ⟨i, hi⟩).presentation_number = 0

/-- The bytes a single unit contributes to the BL sink under per-layer routing
with no conversion and no filters. -/
def blPart (chunk : List Nat) (nal : NALUnit) : List Nat :=
  if nal.nal_type = NAL_UNSPEC62 ∨ nal.nal_type = NAL_UNSPEC63 then []
  else OUT_NAL_HEADER ++ sliceBytes chunk nal.start nal.nal_end

/-- Frame order entries mapping decoded numbers 0, 1, 2 to presentation numbers
2, 0, 1. -/
def frames3 : List Frame := [⟨0, 2⟩, ⟨1, 0⟩, ⟨2, 1⟩]

/-- A state with three buffered records (decoded indices 0, 1, 2) and an RPU
sink. -/
def stC2 : ProcState :=
  { reader := { options := optsPlain, rpu_nals := [⟨0, 0, [10]⟩, ⟨1, 0, [11]⟩, ⟨2, 0, [12]⟩],
                previous_rpu_index := 2 },
    writer := wRPU, warnings := [] }

/-- A state with an RPU sink and a buffered record whose decoded index 1 has no
matching frame entry in `[⟨0, 0⟩]`. -/
def stC5 : ProcState :=
  { reader := { options := optsPlain, rpu_nals := [⟨0, 0, [10]⟩, ⟨1, 0, [11]⟩],
                previous_rpu_index := 1 },
    writer := wRPU, warnings := [] }

/-- The dispatcher state after accepting the two RPU units of the C6 witness
run. -/
def c6res : ProcState :=
  match writeNals extId rpuChunk (mkState optsPlain wRPU) [nalRpu0, nalRpu5] with
  | .ok s => s
  | .error _ => mkState optsPlain wRPU

/-- An SEI-prefix unit spanning the first two bytes of a chunk. -/
def nalSei : NALUnit := { nal_type := 39, start := 0, nal_end := 2, decoded_frame_index := 0 }

/-- A unit of unremarkable type (a BL-class unit). -/
def nalOther : NALUnit := { nal_type := 1, start := 0, nal_end := 2, decoded_frame_index := 0 }

/-- An EL unit spanning the whole of `rpuChunk`. -/
def nalEl : NALUnit := { nal_type := 63, start := 0, nal_end := 4, decoded_frame_index := 0 }

/-- The state after routing an RPU unit's payload to the EL sink: the tracked
index is updated and the EL sink receives the start marker then the payload. -/
def elAfterRpu (st : ProcState) (nal : NALUnit) (payload : List Nat) (el : List Nat) : ProcState :=
  { st with reader := { st.reader with previous_rpu_index := nal.decoded_frame_index },
            writer := { st.writer with el_writer := some (el ++ OUT_NAL_HEADER ++ payload) } }

/-- The state with the EL sink contents replaced. -/
def elWritten (st : ProcState) (bytes : List Nat) : ProcState :=
  { st with writer := { st.writer with el_writer := some bytes } }

/-- Sink set: BL and EL. -/
def wBLEL : DoviWriter :=
  { bl_writer := some [], el_writer := some [], rpu_writer := none, sl_writer := none }

/-- The state after dispatching a BL-class unit to a BL-only sink set. -/
def c3res : ProcState :=
  match writeNal extId rpuChunk (mkState optsPlain wBL) nalOther with
  | .ok s => s
  | .error _ => mkState optsPlain wBL

/-- The state after dispatching an RPU unit when both an EL and an RPU sink are
configured. -/
def c3dup : ProcState :=
  match writeNal extId rpuChunk (mkState optsPlain wELRPU) nalRpu5 with
  | .ok s => s
  | .error _ => mkState optsPlain wELRPU

/-- C1 (counterexample): two consecutive RPU units sharing decoded frame index 0
are both accepted — the dispatcher buffers two records and prints no warning, so
the claimed discard does not hold for every frame index. -/
theorem c1_dup_frame_zero_kept :
    (writeNals extId rpuChunk (mkState optsPlain wRPU) [nalRpu0, nalRpu0]).map
        (fun r => (r.reader.rpu_nals.length, r.warnings)) = .ok (2, []) := by
  rfl

/-- C1 (amended): whenever the tracked index of the most recently accepted RPU is
nonzero and an RPU unit repeats it, the dispatcher appends a non-fatal warning
for that frame and discards the unit — the sinks, the RPU buffer and the tracked
index are all left unchanged, in every sink configuration. -/
theorem c1_duplicate_rpu_discarded (ext : Externals) (chunk : List Nat) (st : ProcState)
    (nal : NALUnit) (hprev : 0 < st.reader.previous_rpu_index)
    (ht : nal.nal_type = NAL_UNSPEC62)
    (hd : nal.decoded_frame_index = st.reader.previous_rpu_index) :
    writeNal ext chunk st nal =
      .ok { st with warnings := st.warnings ++ [st.reader.previous_rpu_index] } := by
  unfold writeNal dispatchNal
  simp [ht, hd, hprev, NAL_UNSPEC62, NAL_SEI]

/-- C1 witness: a second RPU unit for frame 5 arriving while frame 5 is the most
recent accepted one is discarded with a warning. -/
theorem c1_duplicate_rpu_discarded_witness :
    writeNal extId rpuChunk stPrev5 nalRpu5 = .ok { stPrev5 with warnings := [5] } :=
  c1_duplicate_rpu_discarded extId rpuChunk stPrev5 nalRpu5 (by decide) rfl rfl

/-- Helper: a dispatcher step leaves the RPU buffer unchanged or appends a single
record indexed by the buffer length, with presentation number 0. -/
lemma dispatchNal_buf_step (ext : Externals) (chunk : List Nat) (st : ProcState)
    (nal : NALUnit) (st' : ProcState) (h : dispatchNal ext chunk st nal = .ok st') :
    st'.reader.rpu_nals = st.reader.rpu_nals ∨
      ∃ d, st'.reader.rpu_nals = st.reader.rpu_nals ++ [⟨st.reader.rpu_nals.length, 0, d⟩] := by
  unfold dispatchNal at h
  dsimp only at h
  repeat' (first | (split at h) | (dsimp only at h))
  all_goals first
    | (cases h; left; rfl)
    | (cases h; right; exact ⟨_, rfl⟩)
    | cases h

/-- Helper: the previous lemma, lifted through the HDR10+ filter. -/
lemma writeNal_buf_step (ext : Externals) (chunk : List Nat) (st : ProcState)
    (nal : NALUnit) (st' : ProcState) (h : writeNal ext chunk st nal = .ok st') :
    st'.reader.rpu_nals = st.reader.rpu_nals ∨
      ∃ d, st'.reader.rpu_nals = st.reader.rpu_nals ++ [⟨st.reader.rpu_nals.length, 0, d⟩] := by
  unfold writeNal at h
  split at h
  · split at h
    · cases h
    · cases h
      left
      rfl
    · exact dispatchNal_buf_step ext chunk st nal st' h
  · exact dispatchNal_buf_step ext chunk st nal st' h

/-- Helper: appending the next acceptance-ordered record preserves the indexing
invariant. -/
lemma wellIndexed_append (l : List RpuNal) (d : List Nat) (h : wellIndexed l) :
    wellIndexed (l ++ [⟨l.length, 0, d⟩]) := by
  intro i hi
  rcases Nat.lt_or_ge i l.length with hlt | hge
  · have hg : (l ++ [(⟨l.length, 0, d⟩ : RpuNal)]).get ⟨i, hi⟩ = l.get ⟨i, hlt⟩ :=
      List.get_append i hlt
    rw [hg]
    exact h i hlt
  · have hlen : i = l.length := by
      have : i < l.length + 1 := by simpa using hi
      omega
    subst hlen
    have hg : (l ++ [(⟨l.length, 0, d⟩ : RpuNal)]).get ⟨l.length, hi⟩ = ⟨l.length, 0, d⟩ := by
      simp
    rw [hg]
    exact ⟨rfl, rfl⟩

/-- C6: every record accepted into the RPU buffer is created with
`decoded_index` equal to its acceptance-order position and `presentation_number`
0, so after any dispatcher run from a well-indexed buffer the i-th buffered
record has `decoded_index = i`, and the flush-time key lookup for it targets the
frame entry whose `decoded_number` equals `i`. -/
theorem c6_acceptance_order_indexing (ext : Externals) (chunk : List Nat) (st : ProcState)
    (nals : List NALUnit) (st' : ProcState) (h : writeNals ext chunk st nals = .ok st')
    (h0 : wellIndexed st.reader.rpu_nals) :
    wellIndexed st'.reader.rpu_nals ∧
      ∀ (frames : List Frame) (i : Nat) (hi : i < st'.reader.rpu_nals.length),
        findKey frames (st'.reader.rpu_nals.get ⟨i, hi⟩) =
          (frames.find? (fun f => i == f.decoded_number)).map Frame.presentation_number := by
  have main : wellIndexed st'.reader.rpu_nals := by
    induction nals generalizing st with
    | nil =>
      cases h
      exact h0
    | cons nal rest ih =>
      unfold writeNals at h
      cases hstep : writeNal ext chunk st nal with
      | error e => rw [hstep] at h; cases h
      | ok st1 =>
        rw [hstep] at h
        dsimp only at h
        rcases writeNal_buf_step ext chunk st nal st1 hstep with heq | ⟨d, heq⟩
        · exact ih st1 h (by rw [heq]; exact h0)
        · exact ih st1 h (by rw [heq]; exact wellIndexed_append _ d h0)
  refine ⟨main, ?_⟩
  intro frames i hi
  have hd : (st'.reader.rpu_nals.get ⟨i, hi⟩).decoded_index = i := (main i hi).1
  unfold findKey
  rw [hd]

/-- C6 witness: a run accepting two RPU units from an empty buffer yields a
well-indexed buffer. -/
theorem c6_acceptance_order_indexing_witness :
    writeNals extId rpuChunk (mkState optsPlain wRPU) [nalRpu0, nalRpu5] = .ok c6res ∧
      wellIndexed c6res.reader.rpu_nals := by
  refine ⟨rfl, ?_⟩
  refine (c6_acceptance_order_indexing extId rpuChunk (mkState optsPlain wRPU)
    [nalRpu0, nalRpu5] c6res rfl ?_).1
  intro i hi
  simp [mkState] at hi

/-- Helper: a dispatcher step (after the HDR10+ filter) writes to at most one
destination, except that an RPU unit under a combined EL-and-RPU sink
configuration writes its start marker to the EL sink while buffering its payload
for the RPU sink. -/
lemma dispatchNal_sink_step (ext : Externals) (chunk : List Nat) (st : ProcState)
    (nal : NALUnit) (st' : ProcState) (h : dispatchNal ext chunk st nal = .ok st') :
    sinkDelta st st' ≤ 1 ∨
      (nal.nal_type = NAL_UNSPEC62 ∧ st.writer.sl_writer = none ∧
        st.writer.rpu_writer.isSome = true ∧
        (∃ el, st.writer.el_writer = some el ∧
          st'.writer.el_writer = some (el ++ OUT_NAL_HEADER)) ∧
        ∃ d, st'.reader.rpu_nals = st.reader.rpu_nals ++ [⟨st.reader.rpu_nals.length, 0, d⟩]) := by
  unfold dispatchNal at h
  dsimp only at h
  repeat' (first | (split at h) | (dsimp only at h))
  all_goals try (cases h)
  all_goals try (left; simp [sinkDelta]; done)
  all_goals try (left; simp only [sinkDelta]; simp; (first | omega | (split <;> simp)); done)
  all_goals (right; simp_all)

/-- C3 (counterexample): with both an EL and an RPU sink configured, a single
RPU unit causes a write to the EL sink (its start marker) and a write to the RPU
destination (its payload is buffered for the RPU sink) — two sinks for one
unit. -/
theorem c3_two_sinks_for_one_unit :
    writeNal extId rpuChunk (mkState optsPlain wELRPU) nalRpu5 = .ok c3dup ∧
      sinkDelta (mkState optsPlain wELRPU) c3dup = 2 := by
  exact ⟨rfl, by decide⟩

/-- C3 (amended): every processed NAL unit causes writes to at most one sink,
except that an RPU unit arriving while both an EL sink and an RPU sink are
configured (per-layer mode) writes its 4-byte start marker to the EL sink and
buffers its payload for the RPU sink. -/
theorem c3_at_most_one_sink (ext : Externals) (chunk : List Nat) (st : ProcState)
    (nal : NALUnit) (st' : ProcState) (h : writeNal ext chunk st nal = .ok st') :
    sinkDelta st st' ≤ 1 ∨
      (nal.nal_type = NAL_UNSPEC62 ∧ st.writer.sl_writer = none ∧
        st.writer.rpu_writer.isSome = true ∧
        (∃ el, st.writer.el_writer = some el ∧
          st'.writer.el_writer = some (el ++ OUT_NAL_HEADER)) ∧
        ∃ d, st'.reader.rpu_nals = st.reader.rpu_nals ++ [⟨st.reader.rpu_nals.length, 0, d⟩]) := by
  unfold writeNal at h
  split at h
  · split at h
    · cases h
    · cases h
      left
      simp [sinkDelta]
    · exact dispatchNal_sink_step ext chunk st nal st' h
  · exact dispatchNal_sink_step ext chunk st nal st' h

/-- C3 witness: dispatching a BL-class unit into a BL-only sink set touches at
most one sink. -/
theorem c3_at_most_one_sink_witness :
    sinkDelta (mkState optsPlain wBL) c3res ≤ 1 ∨
      (nalOther.nal_type = NAL_UNSPEC62 ∧ (mkState optsPlain wBL).writer.sl_writer = none ∧
        (mkState optsPlain wBL).writer.rpu_writer.isSome = true ∧
        (∃ el, (mkState optsPlain wBL).writer.el_writer = some el ∧
          c3res.writer.el_writer = some (el ++ OUT_NAL_HEADER)) ∧
        ∃ d, c3res.reader.rpu_nals = (mkState optsPlain wBL).reader.rpu_nals ++
          [⟨(mkState optsPlain wBL).reader.rpu_nals.length, 0, d⟩]) :=
  c3_at_most_one_sink extId rpuChunk (mkState optsPlain wBL) nalOther c3res rfl

/-- C4 (counterexample): with a conversion mode configured, an EL sink and no
RPU sink, the EL sink receives the 4-byte unit-start marker before the converted
payload (here the identity conversion of the unit's bytes), contradicting the
claim that no separate marker is written when a conversion mode is set. -/
theorem c4_marker_written_despite_conversion :
    (writeNal extId rpuChunk (mkState optsMode wEL) nalRpu5).map (fun r => r.writer.el_writer) =
      .ok (some (OUT_NAL_HEADER ++ rpuChunk)) ∧ OUT_NAL_HEADER ++ rpuChunk ≠ rpuChunk := by
  exact ⟨rfl, by decide⟩

/-- C4 (amended): when per-layer sinks are configured, an RPU unit that is not a
discarded duplicate arrives, no RPU sink exists and an EL sink exists, the EL
sink receives the 4-byte unit-start marker followed by the payload — the
converted payload when a conversion mode is configured (header-intact), the
original unit bytes otherwise.  The marker is prefixed in both cases. -/
theorem c4_rpu_to_el_marker_always (ext : Externals) (chunk : List Nat) (st : ProcState)
    (nal : NALUnit) (el : List Nat)
    (hsl : st.writer.sl_writer = none) (hrpu : st.writer.rpu_writer = none)
    (hel : st.writer.el_writer = some el) (ht : nal.nal_type = NAL_UNSPEC62)
    (hnd : ¬(0 < st.reader.previous_rpu_index ∧
      nal.decoded_frame_index = st.reader.previous_rpu_index)) :
    (∀ m conv, st.reader.options.mode = some m →
      ext.convert m (sliceBytes chunk nal.start nal.nal_end) = .ok conv →
      writeNal ext chunk st nal = .ok (elAfterRpu st nal conv el)) ∧
    (st.reader.options.mode = none →
      writeNal ext chunk st nal =
        .ok (elAfterRpu st nal (sliceBytes chunk nal.start nal.nal_end) el)) := by
  constructor
  · intro m conv hm hc
    unfold writeNal dispatchNal
    simp [ht, hnd, hsl, hrpu, hel, hm, hc, NAL_UNSPEC62, NAL_UNSPEC63, NAL_SEI,
      elAfterRpu, List.append_assoc]
  · intro hm
    unfold writeNal dispatchNal
    simp [ht, hnd, hsl, hrpu, hel, hm, NAL_UNSPEC62, NAL_UNSPEC63, NAL_SEI,
      elAfterRpu, List.append_assoc]

/-- C4 witness: the conversion-mode branch at a concrete input — the EL sink
receives marker then converted payload. -/
theorem c4_rpu_to_el_marker_always_witness :
    writeNal extId rpuChunk (mkState optsMode wEL) nalRpu5 =
      .ok (elAfterRpu (mkState optsMode wEL) nalRpu5 rpuChunk []) :=
  (c4_rpu_to_el_marker_always extId rpuChunk (mkState optsMode wEL) nalRpu5 []
    rfl rfl rfl rfl (by decide)).1 0 rpuChunk rfl rfl

/-- Helper: the dispatcher rules after the HDR10+ filter do not read the
`drop_hdr10plus` flag; toggling it only changes the flag carried in the
resulting state. -/
lemma dispatchNal_setDrop (ext : Externals) (chunk : List Nat) (st : ProcState)
    (nal : NALUnit) (b : Bool) :
    dispatchNal ext chunk (setDrop b st) nal = (dispatchNal ext chunk st nal).map (setDrop b) := by
  unfold dispatchNal
  dsimp only [setDrop]
  repeat' (first | (split) | (dsimp only))
  all_goals simp_all [setDrop, Except.map]

/-- Helper: when the unit is not an SEI-prefix unit, or the classifier reports
it as not ST2094-40, the HDR10+ filter passes the unit through unchanged. -/
lemma writeNal_eq_dispatchNal (ext : Externals) (chunk : List Nat) (nal : NALUnit)
    (hb : nal.nal_type ≠ NAL_SEI ∨
      ext.is_st2094_40_sei (sliceBytes chunk nal.start nal.nal_end) = .ok false)
    (st : ProcState) : writeNal ext chunk st nal = dispatchNal ext chunk st nal := by
  unfold writeNal
  split
  · rcases hb with h | h
    · rename_i hg
      exact absurd hg.2 h
    · rw [h]
  · rfl

/-- C8: when `drop_hdr10plus` is set, an SEI-prefix unit whose payload the
classifier reports as ST2094-40 is discarded with no state change (no sink
write, before any other rule); and any unit not satisfying both conditions is
dispatched exactly as it would be with the flag clear (the resulting state
differs only in the carried flag). -/
theorem c8_hdr10plus_drop (ext : Externals) (chunk : List Nat) (st : ProcState)
    (nal : NALUnit) :
    (∀ (h1 : st.reader.options.drop_hdr10plus = true) (h2 : nal.nal_type = NAL_SEI)
      (h3 : ext.is_st2094_40_sei (sliceBytes chunk nal.start nal.nal_end) = .ok true),
      writeNal ext chunk st nal = .ok st) ∧
    (∀ (hb : nal.nal_type ≠ NAL_SEI ∨
        ext.is_st2094_40_sei (sliceBytes chunk nal.start nal.nal_end) = .ok false),
      writeNal ext chunk (setDrop true st) nal =
        (writeNal ext chunk (setDrop false st) nal).map (setDrop true)) := by
  constructor
  · intro h1 h2 h3
    unfold writeNal
    rw [if_pos ⟨h1, h2⟩, h3]
  · intro hb
    rw [writeNal_eq_dispatchNal ext chunk nal hb, writeNal_eq_dispatchNal ext chunk nal hb,
      dispatchNal_setDrop, dispatchNal_setDrop]
    cases dispatchNal ext chunk st nal with
    | error e => rfl
    | ok s => rfl

/-- C8 witness: a classified SEI unit is dropped with no state change, and a
BL-class unit is dispatched identically with and without the flag. -/
theorem c8_hdr10plus_drop_witness :
    writeNal extSei rpuChunk (setDrop true (mkState optsPlain wBL)) nalSei =
      .ok (setDrop true (mkState optsPlain wBL)) ∧
    writeNal extId rpuChunk (setDrop true (mkState optsPlain wBL)) nalOther =
      (writeNal extId rpuChunk (setDrop false (mkState optsPlain wBL)) nalOther).map
        (setDrop true) :=
  ⟨(c8_hdr10plus_drop extSei rpuChunk (setDrop true (mkState optsPlain wBL)) nalSei).1
      rfl rfl rfl,
    (c8_hdr10plus_drop extId rpuChunk (mkState optsPlain wBL) nalOther).2
      (Or.inl (by decide))⟩

/-- Helper: with the HDR10+ filter flag clear, the filter never fires. -/
lemma writeNal_of_drop_false (ext : Externals) (chunk : List Nat) (st : ProcState)
    (nal : NALUnit) (hd : st.reader.options.drop_hdr10plus = false) :
    writeNal ext chunk st nal = dispatchNal ext chunk st nal := by
  have hng : ¬(st.reader.options.drop_hdr10plus = true ∧ nal.nal_type = NAL_SEI) := by
    rintro ⟨h1, _⟩
    rw [hd] at h1
    cases h1
  unfold writeNal
  rw [if_neg hng]

/-- Helper: under per-layer routing with no conversion and no filters, one
dispatcher step succeeds, appends exactly `blPart` to the BL sink, and preserves
the options and the absent single-layer sink. -/
lemma writeNal_bl_step (ext : Externals) (chunk : List Nat) (st : ProcState)
    (nal : NALUnit) (b : List Nat)
    (hm : st.reader.options.mode = none) (hd : st.reader.options.drop_hdr10plus = false)
    (hsl : st.writer.sl_writer = none) (hbl : st.writer.bl_writer = some b) :
    ∃ st', writeNal ext chunk st nal = .ok st' ∧
      st'.writer.bl_writer = some (b ++ blPart chunk nal) ∧
      st'.reader.options = st.reader.options ∧ st'.writer.sl_writer = none := by
  rw [writeNal_of_drop_false ext chunk st nal hd]
  unfold dispatchNal
  simp only [hm, hsl, hbl]
  repeat' (first | (split) | (dsimp only))
  all_goals refine ⟨_, rfl, ?_, ?_, ?_⟩
  all_goals simp_all [blPart]

/-- C9: with per-layer sinks, no conversion mode and no filter flags, (a) the BL
sink receives exactly the units that are neither EL nor RPU kind, each as the
4-byte start marker followed by the unit's bytes unmodified, in original order;
and (b) each EL-kind unit written to the EL sink is the start marker followed by
the unit's bytes with the leading 2 bytes stripped. -/
theorem c9_layer_separation :
    (∀ (ext : Externals) (chunk : List Nat) (st : ProcState) (nals : List NALUnit)
      (b : List Nat),
      st.reader.options.mode = none → st.reader.options.drop_hdr10plus = false →
      st.writer.sl_writer = none → st.writer.bl_writer = some b →
      ∃ st', writeNals ext chunk st nals = .ok st' ∧
        st'.writer.bl_writer = some (b ++ (nals.map (blPart chunk)).flatten)) ∧
    (∀ (ext : Externals) (chunk : List Nat) (st : ProcState) (nal : NALUnit) (e : List Nat),
      st.writer.sl_writer = none → nal.nal_type = NAL_UNSPEC63 →
      st.writer.el_writer = some e →
      writeNal ext chunk st nal =
        .ok (elWritten st (e ++ OUT_NAL_HEADER ++ sliceBytes chunk (nal.start + 2) nal.nal_end))) := by
  constructor
  · intro ext chunk st nals
    induction nals generalizing st with
    | nil =>
      intro b _ _ _ hbl
      exact ⟨st, rfl, by simp [hbl]⟩
    | cons nal rest ih =>
      intro b hm hd hsl hbl
      obtain ⟨st1, hstep, hbl1, hopts1, hsl1⟩ :=
        writeNal_bl_step ext chunk st nal b hm hd hsl hbl
      obtain ⟨st', hrun, hbl'⟩ :=
        ih st1 (b ++ blPart chunk nal) (by rw [hopts1]; exact hm) (by rw [hopts1]; exact hd)
          hsl1 hbl1
      refine ⟨st', ?_, ?_⟩
      · unfold writeNals
        rw [hstep]
        exact hrun
      · rw [hbl']
        simp [List.append_assoc]
  · intro ext chunk st nal e hsl ht hel
    unfold writeNal dispatchNal
    simp [ht, hsl, hel, NAL_SEI, NAL_UNSPEC62, NAL_UNSPEC63, elWritten]

/-- C9 witness: a concrete mixed run — BL receives exactly the non-EL, non-RPU
units with markers, and an EL unit goes to the EL sink with its first two bytes
stripped. -/
theorem c9_layer_separation_witness :
    (∃ st', writeNals extId rpuChunk (mkState optsPlain wBLEL)
        [nalOther, nalEl, nalRpu5, nalSei] = .ok st' ∧
      st'.writer.bl_writer =
        some ([] ++ ([nalOther, nalEl, nalRpu5, nalSei].map (blPart rpuChunk)).flatten)) ∧
    writeNal extId rpuChunk (mkState optsPlain wBLEL) nalEl =
      .ok (elWritten (mkState optsPlain wBLEL)
        ([] ++ OUT_NAL_HEADER ++ sliceBytes rpuChunk (nalEl.start + 2) nalEl.nal_end)) :=
  ⟨c9_layer_separation.1 extId rpuChunk (mkState optsPlain wBLEL)
      [nalOther, nalEl, nalRpu5, nalSei] [] rfl rfl rfl rfl,
    c9_layer_separation.2 extId rpuChunk (mkState optsPlain wBLEL) nalEl [] rfl rfl rfl⟩


lemma assignKeys_ok (frames : List Frame) (l : List RpuNal)
    (h : ∀ r ∈ l, (findKey frames r).isSome) :
    assignKeys frames l = .ok (l.map (fun r => (r, keyOf frames r))) := by
  induction l with
  | nil => rfl
  | cons r rs ih =>
    obtain ⟨k, hk⟩ := Option.isSome_iff_exists.mp (h r (List.mem_cons_self r rs))
    unfold assignKeys
    rw [hk, ih (fun x hx => h x (List.mem_cons_of_mem _ hx))]
    simp [keyOf, hk]

lemma assignKeys_err (frames : List Frame) (l : List RpuNal) (r : RpuNal)
    (h : l.find? (fun x => (findKey frames x).isNone) = some r) :
    assignKeys frames l = .error (missingMsg r.decoded_index) := by
  induction l with
  | nil => cases h
  | cons x xs ih =>
    rw [List.find?_cons] at h
    by_cases hx : (findKey frames x).isNone
    · rw [hx] at h
      dsimp only at h
      cases h
      unfold assignKeys
      rw [Option.isNone_iff_eq_none.mp hx]
    · rw [Bool.not_eq_true] at hx
      rw [hx] at h
      dsimp only at h
      cases hfk : findKey frames x with
      | none => rw [hfk] at hx; cases hx
      | some k =>
        unfold assignKeys
        rw [hfk, ih h]

lemma map_fst_keyed (frames : List Frame) (l : List RpuNal) :
    (l.map (fun r => (r, keyOf frames r))).map Prod.fst = l := by
  rw [List.map_map]
  exact List.map_id l

lemma sortedRecs_perm (frames : List Frame) (l : List RpuNal) :
    (sortedRecs frames l).Perm l := by
  have hp := (List.perm_insertionSort pairLE (l.map (fun r => (r, keyOf frames r)))).map Prod.fst
  rw [map_fst_keyed] at hp
  exact hp

lemma mem_keyed_snd (frames : List Frame) (l : List RpuNal) (p : RpuNal × Nat)
    (hp : p ∈ l.map (fun r => (r, keyOf frames r))) : p.2 = keyOf frames p.1 := by
  obtain ⟨r, _, rfl⟩ := List.mem_map.mp hp
  rfl

lemma mem_sorted_keyed_snd (frames : List Frame) (l : List RpuNal) (p : RpuNal × Nat)
    (hp : p ∈ List.insertionSort pairLE (l.map (fun r => (r, keyOf frames r)))) :
    p.2 = keyOf frames p.1 :=
  mem_keyed_snd frames l p
    ((List.perm_insertionSort pairLE (l.map (fun r => (r, keyOf frames r)))).mem_iff.mp hp)

lemma sortedRecs_pairwise (frames : List Frame) (l : List RpuNal) :
    (sortedRecs frames l).Pairwise (fun a b => keyOf frames a ≤ keyOf frames b) := by
  unfold sortedRecs
  rw [List.pairwise_map]
  refine List.Pairwise.imp_of_mem ?_
    (List.sorted_insertionSort pairLE (l.map (fun r => (r, keyOf frames r))))
  intro a b ha hb hr
  have ha2 := mem_sorted_keyed_snd frames l a ha
  have hb2 := mem_sorted_keyed_snd frames l b hb
  unfold pairLE at hr
  rw [ha2, hb2] at hr
  exact hr

lemma sortedRecs_stable (frames : List Frame) (l : List RpuNal) (k : Nat) :
    (sortedRecs frames l).filter (fun r => keyOf frames r == k) =
      l.filter (fun r => keyOf frames r == k) := by
  unfold sortedRecs
  set pairs := l.map (fun r => (r, keyOf frames r)) with hpairs
  set sp := List.insertionSort pairLE pairs with hsp
  have hL : (sp.map Prod.fst).filter (fun r => keyOf frames r == k) =
      (sp.filter (fun p => keyOf frames p.1 == k)).map Prod.fst := by
    rw [List.filter_map]
    rfl
  have hR : l.filter (fun r => keyOf frames r == k) =
      (pairs.filter (fun p => keyOf frames p.1 == k)).map Prod.fst := by
    conv_lhs => rw [← map_fst_keyed frames l]
    rw [List.filter_map]
    rfl
  have hcongrS : sp.filter (fun p => keyOf frames p.1 == k) =
      sp.filter (fun p => p.2 == k) :=
    List.filter_congr (fun p hp => by rw [mem_sorted_keyed_snd frames l p hp])
  have hcongrP : pairs.filter (fun p => keyOf frames p.1 == k) =
      pairs.filter (fun p => p.2 == k) :=
    List.filter_congr (fun p hp => by rw [mem_keyed_snd frames l p hp])
  have hstab : sp.filter (fun p => p.2 == k) = pairs.filter (fun p => p.2 == k) := by
    have hpw : (pairs.filter (fun p => p.2 == k)).Pairwise pairLE := by
      refine List.pairwise_of_forall_mem_list ?_
      intro a ha b hb
      have ha2 := (List.mem_filter.mp ha).2
      have hb2 := (List.mem_filter.mp hb).2
      unfold pairLE
      rw [eq_of_beq ha2, eq_of_beq hb2]
    have hsub : (pairs.filter (fun p => p.2 == k)).Sublist sp :=
      List.sublist_insertionSort hpw (List.filter_sublist pairs)
    have hsub2 : (pairs.filter (fun p => p.2 == k)).Sublist
        (sp.filter (fun p => p.2 == k)) := by
      have hstep := List.Sublist.filter (fun p => p.2 == k) hsub
      rwa [show (pairs.filter (fun p => p.2 == k)).filter (fun p => p.2 == k) =
          pairs.filter (fun p => p.2 == k) from
        List.filter_eq_self.mpr (fun a ha => (List.mem_filter.mp ha).2)] at hstep
    have hlen : (sp.filter (fun p => p.2 == k)).length =
        (pairs.filter (fun p => p.2 == k)).length :=
      ((List.perm_insertionSort pairLE pairs).filter (fun p => p.2 == k)).length_eq
    exact (hsub2.eq_of_length hlen.symm).symm
  rw [hL, hR, hcongrS, hcongrP, hstab]

lemma rpuPayloadBytes_renumber (l : List RpuNal) :
    rpuPayloadBytes (renumber l) = rpuPayloadBytes l := by
  unfold rpuPayloadBytes renumber
  rw [List.map_map]
  have h2 : l.enum.map ((fun r => OUT_NAL_HEADER ++ r.data) ∘
      (fun p : Nat × RpuNal => { p.2 with presentation_number := p.1 })) =
      l.map (fun r => OUT_NAL_HEADER ++ r.data) := by
    conv_rhs => rw [← List.enum_map_snd l, List.map_map]
    rfl
  rw [h2]

lemma flushWriter_ok (frames : List Frame) (st : ProcState) (out : List Nat)
    (hout : st.writer.rpu_writer = some out) (hf : frames ≠ [])
    (h : ∀ r ∈ st.reader.rpu_nals, (findKey frames r).isSome) :
    flushWriter frames st = .ok (flushedState frames st out) := by
  unfold flushWriter
  rw [hout]
  dsimp only
  rw [if_neg hf, assignKeys_ok frames _ h]
  dsimp only
  unfold flushedState sortedRecs
  rw [rpuPayloadBytes_renumber]

/-- C2: at flush time with an RPU sink configured, nonempty frame data and every
buffered record matched by a frame entry, the buffered records are stable-sorted
by the derived key (the `presentation_number` of the frame entry whose
`decoded_number` equals the record's `decoded_index`): the emitted list is a
permutation of the buffer, pairwise ordered by the key, with equal-key records
kept in buffer order; each record is then written, in that order, as the 4-byte
unit-start marker followed by its stored header-stripped payload, appended to
the RPU sink (flushing the sink is the identity in this model). -/
theorem c2_flush_reorders (frames : List Frame) (st : ProcState) (out : List Nat)
    (hout : st.writer.rpu_writer = some out) (hf : frames ≠ [])
    (hm : ∀ r ∈ st.reader.rpu_nals, (findKey frames r).isSome) :
    (sortedRecs frames st.reader.rpu_nals).Perm st.reader.rpu_nals ∧
    (sortedRecs frames st.reader.rpu_nals).Pairwise
      (fun a b => keyOf frames a ≤ keyOf frames b) ∧
    (∀ k, (sortedRecs frames st.reader.rpu_nals).filter (fun r => keyOf frames r == k) =
      st.reader.rpu_nals.filter (fun r => keyOf frames r == k)) ∧
    flushWriter frames st = .ok (flushedState frames st out) ∧
    (flushedState frames st out).writer.rpu_writer =
      some (out ++ rpuPayloadBytes (sortedRecs frames st.reader.rpu_nals)) :=
  ⟨sortedRecs_perm frames _, sortedRecs_pairwise frames _,
    fun k => sortedRecs_stable frames _ k, flushWriter_ok frames st out hout hf hm, rfl⟩

/-- C2 witness: the spec's reorder example — records with decoded indices
0, 1, 2 under presentation numbers 2, 0, 1 are emitted in the order of decoded
indices 1, 2, 0. -/
theorem c2_flush_reorders_witness :
    (sortedRecs frames3 stC2.reader.rpu_nals).Perm stC2.reader.rpu_nals ∧
    (sortedRecs frames3 stC2.reader.rpu_nals).Pairwise
      (fun a b => keyOf frames3 a ≤ keyOf frames3 b) ∧
    (∀ k, (sortedRecs frames3 stC2.reader.rpu_nals).filter (fun r => keyOf frames3 r == k) =
      stC2.reader.rpu_nals.filter (fun r => keyOf frames3 r == k)) ∧
    flushWriter frames3 stC2 = .ok (flushedState frames3 stC2 []) ∧
    (flushedState frames3 stC2 []).writer.rpu_writer =
      some ([] ++ rpuPayloadBytes (sortedRecs frames3 stC2.reader.rpu_nals)) ∧
    (flushedState frames3 stC2 []).writer.rpu_writer =
      some [0, 0, 0, 1, 11, 0, 0, 0, 1, 12, 0, 0, 0, 1, 10] :=
  ⟨(c2_flush_reorders frames3 stC2 [] rfl (by decide) (by decide)).1,
    (c2_flush_reorders frames3 stC2 [] rfl (by decide) (by decide)).2.1,
    (c2_flush_reorders frames3 stC2 [] rfl (by decide) (by decide)).2.2.1,
    (c2_flush_reorders frames3 stC2 [] rfl (by decide) (by decide)).2.2.2.1,
    (c2_flush_reorders frames3 stC2 [] rfl (by decide) (by decide)).2.2.2.2,
    by decide⟩

/-- C5: the flush stage fails fatally exactly when an RPU sink is configured and
either the frame entry list is empty or some buffered record's decoded index
matches no entry's decoded number; in the unmatched case the error message
identifies the first offending decoded index (no key is skipped or
fabricated). -/
theorem c5_flush_fatal_iff (frames : List Frame) (st : ProcState) :
    (isFatal (flushWriter frames st) = true ↔
      st.writer.rpu_writer.isSome = true ∧
        (frames = [] ∨ ∃ r ∈ st.reader.rpu_nals, findKey frames r = none)) ∧
    (∀ r, st.writer.rpu_writer.isSome = true → frames ≠ [] →
      st.reader.rpu_nals.find? (fun x => (findKey frames x).isNone) = some r →
      flushWriter frames st = .error (missingMsg r.decoded_index)) := by
  have part2 : ∀ r, st.writer.rpu_writer.isSome = true → frames ≠ [] →
      st.reader.rpu_nals.find? (fun x => (findKey frames x).isNone) = some r →
      flushWriter frames st = .error (missingMsg r.decoded_index) := by
    intro r hrpu hf hfind
    obtain ⟨out, hout⟩ := Option.isSome_iff_exists.mp hrpu
    unfold flushWriter
    rw [hout]
    dsimp only
    rw [if_neg hf, assignKeys_err frames _ r hfind]
  refine ⟨?_, part2⟩
  cases hout : st.writer.rpu_writer with
  | none =>
    have hok : flushWriter frames st = .ok st := by
      unfold flushWriter
      rw [hout]
    rw [hok]
    simp [isFatal, hout]
  | some out =>
    by_cases hf : frames = []
    · have herr : flushWriter frames st = .error "No frames parsed!" := by
        unfold flushWriter
        rw [hout]
        dsimp only
        rw [if_pos hf]
      rw [herr]
      simp [isFatal, hout, hf]
    · by_cases hall : ∀ r ∈ st.reader.rpu_nals, (findKey frames r).isSome
      · rw [flushWriter_ok frames st out hout hf hall]
        constructor
        · intro hcon
          exact (Bool.false_ne_true hcon).elim
        · rintro ⟨-, h | ⟨r, hr, hnone⟩⟩
          · exact absurd h hf
          · have hx := hall r hr
            rw [hnone] at hx
            exact (Bool.false_ne_true hx).elim
      · push_neg at hall
        obtain ⟨r0, hr0, hr0n⟩ := hall
        have hsome : (st.reader.rpu_nals.find? (fun x => (findKey frames x).isNone)).isSome :=
          List.find?_isSome.mpr ⟨r0, hr0, by
            rw [Option.isNone_iff_eq_none, ← Option.not_isSome_iff_eq_none]
            exact hr0n⟩
        obtain ⟨r1, hr1⟩ := Option.isSome_iff_exists.mp hsome
        rw [part2 r1 (by rw [hout]; rfl) hf hr1]
        constructor
        · intro _
          refine ⟨rfl, Or.inr ⟨r1, List.mem_of_find?_eq_some hr1, ?_⟩⟩
          have hp := List.find?_some hr1
          rwa [Option.isNone_iff_eq_none] at hp
        · intro _
          rfl

/-- C5 witness: a buffered record with decoded index 1 and only a frame entry
for decoded number 0 makes the flush fail with the message naming index 1. -/
theorem c5_flush_fatal_iff_witness :
    flushWriter [⟨0, 0⟩] stC5 = .error (missingMsg 1) :=
  (c5_flush_fatal_iff [⟨0, 0⟩] stC5).2 ⟨1, 0, [11]⟩ rfl (by decide) rfl


/-- C7 (failing input): chunk-boundary invariance fails.  The 19-byte input of
three complete units, processed as one read, puts all three units on the BL
sink; split into a 10-byte read (ending just after the second unit's start
marker) and a 9-byte read, the second unit is emitted truncated to nothing and
its payload bytes `204, 221, 238` are dropped, because a read shorter than the
chunk threshold is treated as final and the chunk is parsed to its end. -/
theorem c7_chunk_split_divergence :
    runBL [inputC7] 5 =
      some [0, 0, 0, 1, 170, 187, 0, 0, 0, 1, 204, 221, 238, 0, 0, 0, 1, 17, 34] ∧
    runBL [inputC7.take 10, inputC7.drop 10] 5 =
      some [0, 0, 0, 1, 170, 187, 0, 0, 0, 1, 0, 0, 0, 1, 17, 34] ∧
    ([0, 0, 0, 1, 170, 187, 0, 0, 0, 1, 204, 221, 238, 0, 0, 0, 1, 17, 34] : List Nat) ≠
      [0, 0, 0, 1, 170, 187, 0, 0, 0, 1, 0, 0, 0, 1, 17, 34] :=
  ⟨by decide, by decide, by decide⟩

/-- C10 (failing input): the read loop does not terminate on every finite input.
On the one-byte input `[255]`, which contains no unit-start marker, the loop
reaches the state (source exhausted, working buffer `[255]`, no offsets found)
and steps from that state to itself forever: no fuel bound ever completes the
run. -/
theorem c10_read_loop_diverges :
    ¬ ∃ fuel r, readLoop extId fuel ⟨[[255]], [], [], mkState optsPlain wBL⟩ = some r := by
  have hstuck : loopStep extId ⟨[], [255], [], mkState optsPlain wBL⟩ =
      .cont ⟨[], [255], [], mkState optsPlain wBL⟩ := by decide
  have hnone : ∀ fuel, readLoop extId fuel ⟨[], [255], [], mkState optsPlain wBL⟩ = none := by
    intro fuel
    induction fuel with
    | zero => rfl
    | succ n ih =>
      simp only [readLoop]
      rw [hstuck]
      exact ih
  rintro ⟨fuel, r, hr⟩
  cases fuel with
  | zero => cases hr
  | succ n =>
    have h0 : loopStep extId ⟨[[255]], [], [], mkState optsPlain wBL⟩ =
        .cont ⟨[], [255], [], mkState optsPlain wBL⟩ := by decide
    simp only [readLoop] at hr
    rw [h0] at hr
    dsimp only at hr
    rw [hnone n] at hr
    cases hr

end Dovi
